import Mathlib

/-!
Shallow embedding of `src/ws_listener.py` (st1vms/ws-listener): a WebSocket
listener that polls Chrome DevTools performance logs, classifies CDP events
(`Network.webSocketCreated` / `webSocketFrameReceived` / `webSocketFrameSent`),
resolves connection URLs through a registry and emits `WebSocketMessage`
records into a queue, under a start/close thread lifecycle.

Python dictionary accesses are embedded faithfully: `d.get(k)` becomes an
`Option` field, `d.get(k, default)` becomes `Option.getD`, and `d[k]` on a
possibly-absent key becomes a fallible access raising a `KeyError`.
-/

namespace WsListener

/-- Python exceptions that the modelled code can raise. -/
inductive PyError where
  | keyError : String → PyError
  | runtimeError : String → PyError
  | attributeError : String → PyError
  deriving DecidableEq, Repr

/-- The nested `response` object of a frame event's `params`
(`message["params"]["response"]`).  Its `payloadData` key may be absent:
the code reads it with `.get("payloadData", "")`. -/
structure WsResponse where
  payloadData : Option String
  deriving DecidableEq, Repr

/-- The `params` mapping of a CDP message.  Every key the code reads via
`.get` is an `Option`; the `response` key is read with `["response"]`
(fallible), so its absence is `none` here and raises at access time.
Timestamps stay in the browser's own clock domain; they are embedded as
rationals since the code only passes them through. -/
structure WsParams where
  requestId : Option String
  url : Option String
  timestamp : Option ℚ
  response : Option WsResponse
  deriving DecidableEq, Repr

/-- The empty `params` dictionary, the default taken by
`message.get("params", {})`. -/
def WsParams.empty : WsParams :=
  { requestId := none, url := none, timestamp := none, response := none }

/-- The decoded protocol message `json_loads(entry["message"])["message"]`:
a `method` string and a `params` mapping, each possibly absent
(`message.get("method", "")`, `message.get("params", {})` /
`message["params"]`). -/
structure CDPMessage where
  method : Option String
  params : Option WsParams
  deriving DecidableEq, Repr

/-- The `WebSocketMessage` dataclass.  `request_id` and `timestamp` are
produced by `params.get(...)` and can therefore be `None` at runtime despite
the dataclass annotations, which Python does not enforce. -/
structure WebSocketMessage where
  payload : String
  request_id : Option String
  timestamp : Option ℚ
  url : String
  received : Bool
  deriving DecidableEq, Repr

/-- `self.websocket_url_map`: a Python dict from requestId to url.  Embedded
as an association list where insertion prepends and lookup takes the first
match, which realises dict overwrite semantics for lookups. -/
abbrev Registry := List (String × String)

/-- Dict lookup `self.websocket_url_map.get(request_id, ...)` with a possibly
`None` key: `None` is never a key of the map (only truthy ids are inserted),
so it misses. -/
def regGet (reg : Registry) : Option String → Option String
  | none => none
  | some rid => reg.lookup rid

/-- Python truthiness of `params.get(...)` results: `None` and the empty
string are falsy. -/
def truthy : Option String → Bool
  | none => false
  | some s => !(s == "")

/-- One iteration of the classifier body of `_read_loop` on a single decoded
log entry: dispatch on `method`, update the registry for
`Network.webSocketCreated`, or build a `WebSocketMessage` for
`Network.webSocketFrameReceived` / `Network.webSocketFrameSent`.
Returns the new registry and the message enqueued by `self.messages.put`,
if any; raises `KeyError` exactly where the Python subscripts
`message["params"]["response"]` would. -/
def processEntry (reg : Registry) (msg : CDPMessage) :
    Except PyError (Registry × Option WebSocketMessage) :=
  let method := msg.method.getD ""
  let params := msg.params.getD WsParams.empty
  if method = "Network.webSocketCreated" then
    if truthy params.requestId && truthy params.url then
      Except.ok (((params.requestId.getD "", params.url.getD "") :: reg), none)
    else
      Except.ok (reg, none)
  else if method = "Network.webSocketFrameReceived" then
    match msg.params with
    | none => Except.error (PyError.keyError "params")
    | some ps =>
      match ps.response with
      | none => Except.error (PyError.keyError "response")
      | some resp =>
        let payload := resp.payloadData.getD ""
        let ws_url := (regGet reg params.requestId).getD "Unknown URL"
        Except.ok (reg, some
          { payload := payload, request_id := params.requestId,
            timestamp := ps.timestamp, url := ws_url, received := true })
  else if method = "Network.webSocketFrameSent" then
    match msg.params with
    | none => Except.error (PyError.keyError "params")
    | some ps =>
      match ps.response with
      | none => Except.error (PyError.keyError "response")
      | some resp =>
        let payload := resp.payloadData.getD ""
        let ws_url := (regGet reg params.requestId).getD "Unknown URL"
        Except.ok (reg, some
          { payload := payload, request_id := params.requestId,
            timestamp := ps.timestamp, url := ws_url, received := false })
  else
    Except.ok (reg, none)

/-- Result of running the classifier over a batch (or several batches) of
log entries: the final registry, the messages put on the queue in order, and
the exception that aborted processing, if one was raised.  Messages enqueued
before the raising entry stay enqueued, as in Python. -/
structure RunResult where
  registry : Registry
  msgs : List WebSocketMessage
  err : Option PyError
  deriving DecidableEq, Repr

/-- The `for entry in logs` loop of `_read_loop` over one poll batch:
entries are classified in order, threading the registry; an exception
propagates immediately, keeping earlier messages. -/
def processBatch (reg : Registry) : List CDPMessage → RunResult
  | [] => { registry := reg, msgs := [], err := none }
  | e :: es =>
    match processEntry reg e with
    | Except.error err => { registry := reg, msgs := [], err := some err }
    | Except.ok (reg', om) =>
      let r := processBatch reg' es
      { registry := r.registry, msgs := om.toList ++ r.msgs, err := r.err }

/-- The `while self.running.is_set()` loop of `_read_loop`, given the
successive batches returned by `self.driver.get_log("performance")` while
the flag stayed set.  An exception in a batch terminates the loop. -/
def processBatches (reg : Registry) : List (List CDPMessage) → RunResult
  | [] => { registry := reg, msgs := [], err := none }
  | b :: bs =>
    let r₁ := processBatch reg b
    match r₁.err with
    | some e => { registry := r₁.registry, msgs := r₁.msgs, err := some e }
    | none =>
      let r₂ := processBatches r₁.registry bs
      { registry := r₂.registry, msgs := r₁.msgs ++ r₂.msgs, err := r₂.err }

/-- Entry constructor for a `Network.webSocketCreated` log entry with the
given `requestId` and `url`. -/
def mkCreated (rid u : String) : CDPMessage :=
  { method := some "Network.webSocketCreated",
    params := some { requestId := some rid, url := some u,
                     timestamp := none, response := none } }

/-- Entry constructor for a `Network.webSocketFrameReceived` log entry. -/
def mkFrameReceived (rid payload : String) (ts : ℚ) : CDPMessage :=
  { method := some "Network.webSocketFrameReceived",
    params := some { requestId := some rid, url := none,
                     timestamp := some ts,
                     response := some { payloadData := some payload } } }

/-- Entry constructor for a `Network.webSocketFrameSent` log entry. -/
def mkFrameSent (rid payload : String) (ts : ℚ) : CDPMessage :=
  { method := some "Network.webSocketFrameSent",
    params := some { requestId := some rid, url := none,
                     timestamp := some ts,
                     response := some { payloadData := some payload } } }

/-- Either frame-entry constructor, selected by direction:
`true` builds a frame-received entry, `false` a frame-sent one. -/
def mkFrame (dir : Bool) (rid payload : String) (ts : ℚ) : CDPMessage :=
  if dir then mkFrameReceived rid payload ts else mkFrameSent rid payload ts

/-- The registry key/value pair a log entry inserts, if any: only a
`Network.webSocketCreated` entry with truthy `requestId` and `url` inserts.
The conditional structure mirrors `processEntry`'s created branch. -/
def insertedPair (msg : CDPMessage) : Option (String × String) :=
  let method := msg.method.getD ""
  let params := msg.params.getD WsParams.empty
  if method = "Network.webSocketCreated" then
    if truthy params.requestId && truthy params.url then
      some (params.requestId.getD "", params.url.getD "")
    else none
  else none

/-- Whether a log entry (re-)registers the id `R` in the url map. -/
def registersId (R : String) (e : CDPMessage) : Bool :=
  match insertedPair e with
  | some (k, _) => k == R
  | none => false

/-- No entry of the batch (re-)registers the id `R`. -/
def noRegistration (R : String) (es : List CDPMessage) : Bool :=
  es.all fun e => !(registersId R e)

/-! ## Lifecycle (`start` / `close` / `__thread_task`) -/

/-- Lifecycle state of a `WSListener` instance: the `self.running` event
flag, the `self.thread` handle (`None` after `__init__`, identified here by
its spawn index), and a count of worker threads spawned so far. -/
structure Listener where
  running : Bool
  thread : Option Nat
  spawnCount : Nat
  deriving DecidableEq, Repr

/-- Listener state right after `__init__`: flag clear, no thread handle. -/
def Listener.init : Listener :=
  { running := false, thread := none, spawnCount := 0 }

/-- `start`: raises `RuntimeError("Listener is already running...")` when
the running flag is set, otherwise sets the flag and spawns the worker
thread.  State passing is explicit: the result pairs the listener state
after the call with the exception raised, if any; on a raise the state is
returned unchanged, since the raise precedes every mutation. -/
def start (l : Listener) : Listener × Option PyError :=
  if l.running then
    (l, some (PyError.runtimeError "Listener is already running..."))
  else
    ({ running := true, thread := some l.spawnCount,
       spawnCount := l.spawnCount + 1 }, none)

/-- `close`: clears the running flag, then calls `self.thread.join()`.
When `start` was never called the handle is still `None` and the attribute
access raises `AttributeError`; otherwise `join` waits for the worker (a
no-op here once the worker has terminated) and returns normally. -/
def close (l : Listener) : Listener × Option PyError :=
  let l' := { l with running := false }
  match l'.thread with
  | none => (l', some (PyError.attributeError "join"))
  | some _ => (l', none)

/-- The worker-visible mutable internals touched by `__thread_task`:
whether the Chrome session is open, the running flag, the url map and the
message queue. -/
structure WorkerState where
  sessionOpen : Bool
  running : Bool
  registry : Registry
  queue : List WebSocketMessage
  deriving DecidableEq, Repr

/-- Environment of one worker run: the outcomes of the external collaborator
calls `execute_cdp_cmd("Network.enable", {})` and `driver.get(url)` (an
exception if the call raised), and the poll batches `get_log("performance")`
returned while the running flag stayed set. -/
structure WorkerEnv where
  enableErr : Option PyError
  navErr : Option PyError
  batches : List (List CDPMessage)

/-- The `try`-block body of `__thread_task`: enable network capture,
navigate to the configured url, then run `_read_loop`. -/
def workerBody (env : WorkerEnv) (st : WorkerState) :
    WorkerState × Option PyError :=
  match env.enableErr with
  | some e => (st, some e)
  | none =>
    match env.navErr with
    | some e => (st, some e)
    | none =>
      let r := processBatches st.registry env.batches
      ({ st with registry := r.registry, queue := st.queue ++ r.msgs }, r.err)

/-- `__thread_task`: open the Chrome session, then run the body under
`try/finally`; the `finally` clause quits the session (`driver.quit()`) and
clears the running flag (`self.running.clear()`) on every path out of the
body, raising or not. -/
def threadTask (env : WorkerEnv) (st : WorkerState) :
    WorkerState × Option PyError :=
  let st₀ := { st with sessionOpen := true }
  let p := workerBody env st₀
  ({ p.1 with sessionOpen := false, running := false }, p.2)

/-! ## Classifier lemmas -/

theorem processEntry_recv (reg : Registry) (ps : WsParams) (resp : WsResponse)
    (h : ps.response = some resp) :
    processEntry reg
        { method := some "Network.webSocketFrameReceived", params := some ps }
      = Except.ok (reg, some
          { payload := resp.payloadData.getD "", request_id := ps.requestId,
            timestamp := ps.timestamp,
            url := (regGet reg ps.requestId).getD "Unknown URL",
            received := true }) := by
  simp [processEntry, h]

theorem processEntry_sent (reg : Registry) (ps : WsParams) (resp : WsResponse)
    (h : ps.response = some resp) :
    processEntry reg
        { method := some "Network.webSocketFrameSent", params := some ps }
      = Except.ok (reg, some
          { payload := resp.payloadData.getD "", request_id := ps.requestId,
            timestamp := ps.timestamp,
            url := (regGet reg ps.requestId).getD "Unknown URL",
            received := false }) := by
  simp [processEntry, h]

theorem processEntry_created (reg : Registry) (rid u : String)
    (hr : rid ≠ "") (hu : u ≠ "") :
    processEntry reg (mkCreated rid u) = Except.ok ((rid, u) :: reg, none) := by
  simp [processEntry, mkCreated, truthy, hr, hu]

theorem processBatch_cons_ok (reg reg' : Registry) (e : CDPMessage)
    (om : Option WebSocketMessage) (es : List CDPMessage)
    (h : processEntry reg e = Except.ok (reg', om)) :
    processBatch reg (e :: es) =
      { registry := (processBatch reg' es).registry,
        msgs := om.toList ++ (processBatch reg' es).msgs,
        err := (processBatch reg' es).err } := by
  simp only [processBatch, h]

theorem processEntry_mkFrame (reg : Registry) (dir : Bool)
    (rid payload : String) (ts : ℚ) :
    processEntry reg (mkFrame dir rid payload ts)
      = Except.ok (reg, some
          { payload := payload, request_id := some rid, timestamp := some ts,
            url := (reg.lookup rid).getD "Unknown URL", received := dir }) := by
  cases dir <;>
    simp [mkFrame, processEntry, mkFrameReceived, mkFrameSent, regGet]

theorem processEntry_registry (reg reg' : Registry) (e : CDPMessage)
    (om : Option WebSocketMessage)
    (hok : processEntry reg e = Except.ok (reg', om)) :
    reg' = (insertedPair e).elim reg (fun kv => kv :: reg) := by
  by_cases hc1 : e.method.getD "" = "Network.webSocketCreated"
  · by_cases ht : (truthy (e.params.getD WsParams.empty).requestId
        && truthy (e.params.getD WsParams.empty).url) = true
    · simp [processEntry, hc1, ht] at hok
      simp [insertedPair, hc1, ht, hok.1]
    · simp [processEntry, hc1, ht] at hok
      simp [insertedPair, hc1, ht, hok.1]
  · have hni : insertedPair e = none := by simp [insertedPair, hc1]
    rw [hni]
    by_cases hc2 : e.method.getD "" = "Network.webSocketFrameReceived"
    · cases hp : e.params with
      | none => simp [processEntry, hc1, hc2, hp] at hok
      | some ps =>
        cases hr : ps.response with
        | none => simp [processEntry, hc1, hc2, hp, hr] at hok
        | some resp =>
          simp [processEntry, hc1, hc2, hp, hr] at hok
          simp [hok.1]
    · by_cases hc3 : e.method.getD "" = "Network.webSocketFrameSent"
      · cases hp : e.params with
        | none => simp [processEntry, hc1, hc2, hc3, hp] at hok
        | some ps =>
          cases hr : ps.response with
          | none => simp [processEntry, hc1, hc2, hc3, hp, hr] at hok
          | some resp =>
            simp [processEntry, hc1, hc2, hc3, hp, hr] at hok
            simp [hok.1]
      · simp [processEntry, hc1, hc2, hc3] at hok
        simp [hok.1]

theorem processEntry_lookup_preserved (R : String) (reg reg' : Registry)
    (e : CDPMessage) (om : Option WebSocketMessage)
    (hreg : registersId R e = false)
    (hok : processEntry reg e = Except.ok (reg', om)) :
    reg'.lookup R = reg.lookup R := by
  have h := processEntry_registry reg reg' e om hok
  cases hip : insertedPair e with
  | none => rw [hip] at h; simp only [Option.elim] at h; rw [h]
  | some kv =>
    rw [hip] at h
    obtain ⟨k, v⟩ := kv
    simp only [Option.elim] at h
    subst h
    simp only [registersId, hip] at hreg
    simp only [List.lookup]
    have hbeq : (R == k) = false := by
      simp only [beq_eq_false_iff_ne] at hreg ⊢
      exact fun hc => hreg hc.symm
    rw [hbeq]

theorem processBatch_lookup_preserved (R : String) (reg : Registry)
    (es : List CDPMessage) (h : noRegistration R es = true) :
    (processBatch reg es).registry.lookup R = reg.lookup R := by
  induction es generalizing reg with
  | nil => rfl
  | cons e es ih =>
    simp only [noRegistration, List.all_cons, Bool.and_eq_true,
      Bool.not_eq_true'] at h
    obtain ⟨he, hes⟩ := h
    simp only [processBatch]
    cases hok : processEntry reg e with
    | error err => rfl
    | ok p =>
      obtain ⟨reg', om⟩ := p
      dsimp only
      have h1 := processEntry_lookup_preserved R reg reg' e om he hok
      rw [← h1]
      exact ih reg' (by simpa [noRegistration] using hes)

theorem processBatch_append (reg : Registry) (es₁ es₂ : List CDPMessage)
    (h : (processBatch reg es₁).err = none) :
    processBatch reg (es₁ ++ es₂) =
      { registry := (processBatch (processBatch reg es₁).registry es₂).registry,
        msgs := (processBatch reg es₁).msgs
          ++ (processBatch (processBatch reg es₁).registry es₂).msgs,
        err := (processBatch (processBatch reg es₁).registry es₂).err } := by
  induction es₁ generalizing reg with
  | nil => simp [processBatch]
  | cons e es ih =>
    simp only [processBatch, List.cons_append] at h ⊢
    cases hok : processEntry reg e with
    | error err => rw [hok] at h; simp at h
    | ok p =>
      obtain ⟨reg', om⟩ := p
      rw [hok] at h
      dsimp only at h ⊢
      simp only [List.append_eq]
      rw [ih reg' h]
      simp [List.append_assoc]

theorem processBatch_append_of_err (reg : Registry) (es₁ es₂ : List CDPMessage)
    (h : (processBatch reg es₁).err ≠ none) :
    processBatch reg (es₁ ++ es₂) = processBatch reg es₁ := by
  induction es₁ generalizing reg with
  | nil => simp [processBatch] at h
  | cons e es ih =>
    simp only [processBatch, List.cons_append] at h ⊢
    cases hok : processEntry reg e with
    | error err => rfl
    | ok p =>
      obtain ⟨reg', om⟩ := p
      rw [hok] at h
      dsimp only at h ⊢
      simp only [List.append_eq]
      rw [ih reg' h]

theorem processBatches_join (reg : Registry) (bs : List (List CDPMessage)) :
    processBatches reg bs = processBatch reg bs.flatten := by
  induction bs generalizing reg with
  | nil => rfl
  | cons b bs ih =>
    simp only [processBatches, List.flatten]
    cases herr : (processBatch reg b).err with
    | some e =>
      rw [processBatch_append_of_err reg b bs.flatten (by simp [herr])]
      dsimp only
      rw [← herr]
    | none =>
      dsimp only
      rw [processBatch_append reg b bs.flatten herr, ih]

/-! ## Claims -/

/-- C1: in a poll batch where a `Network.webSocketCreated` entry for
requestId `R` with url `U` is processed before a `webSocketFrameReceived`
entry for the same `R` (processing reaching both without an exception, and
no entry in between re-registering `R`), exactly one Message is enqueued for
the frame entry — payload `p`, request_id `R`, timestamp `t`, url `U`,
received true — and no Message is enqueued for the creation entry itself. -/
theorem c1_created_then_frame_enqueues_one_message (reg₀ : Registry)
    (pre mid post : List CDPMessage) (R U p : String) (t : ℚ)
    (hR : R ≠ "") (hU : U ≠ "")
    (hpre : (processBatch reg₀ pre).err = none)
    (hmid : (processBatch ((R, U) :: (processBatch reg₀ pre).registry) mid).err
      = none)
    (hnoreg : noRegistration R mid = true) :
    (processBatch reg₀
        (pre ++ [mkCreated R U] ++ mid ++ [mkFrameReceived R p t] ++ post)).msgs
      = (processBatch reg₀ pre).msgs
        ++ (processBatch ((R, U) :: (processBatch reg₀ pre).registry) mid).msgs
        ++ [{ payload := p, request_id := some R, timestamp := some t,
              url := U, received := true }]
        ++ (processBatch
              (processBatch ((R, U) :: (processBatch reg₀ pre).registry)
                mid).registry post).msgs := by
  have e1 : pre ++ [mkCreated R U] ++ mid ++ [mkFrameReceived R p t] ++ post
      = pre ++ (mkCreated R U :: (mid ++ (mkFrameReceived R p t :: post))) := by
    simp
  rw [e1, processBatch_append reg₀ pre _ hpre]
  rw [processBatch_cons_ok _ _ _ _ _
    (processEntry_created (processBatch reg₀ pre).registry R U hR hU)]
  rw [processBatch_append _ mid _ hmid]
  have hlook : (processBatch ((R, U) :: (processBatch reg₀ pre).registry)
      mid).registry.lookup R = some U := by
    rw [processBatch_lookup_preserved R _ mid hnoreg]
    simp [List.lookup]
  have hfr := processEntry_mkFrame
    (processBatch ((R, U) :: (processBatch reg₀ pre).registry) mid).registry
    true R p t
  rw [hlook] at hfr
  rw [processBatch_cons_ok _ _ _ _ _ (show processEntry _ (mkFrameReceived R p t)
    = _ from by simpa [mkFrame] using hfr)]
  simp [List.append_assoc]

/-- C3: after two `Network.webSocketCreated` entries for the same requestId
`R` with different non-empty urls `U₁` then `U₂`, a frame entry for `R`
classified later (with no further re-registration of `R` in between) yields
a Message whose url is `U₂`: the later creation event overwrites the
registry entry. -/
theorem c3_registry_overwrite_resolves_latest_url (reg₀ : Registry) (mid : List CDPMessage) (dir : Bool)
    (R U₁ U₂ p : String) (t : ℚ)
    (hR : R ≠ "") (hU₁ : U₁ ≠ "") (hU₂ : U₂ ≠ "") (hU12 : U₁ ≠ U₂)
    (hmid : (processBatch ((R, U₂) :: (R, U₁) :: reg₀) mid).err = none)
    (hnoreg : noRegistration R mid = true) :
    (processBatch reg₀
        ([mkCreated R U₁, mkCreated R U₂] ++ mid ++ [mkFrame dir R p t])).msgs
      = (processBatch ((R, U₂) :: (R, U₁) :: reg₀) mid).msgs
        ++ [{ payload := p, request_id := some R, timestamp := some t,
              url := U₂, received := dir }] := by
  have e1 : [mkCreated R U₁, mkCreated R U₂] ++ mid ++ [mkFrame dir R p t]
      = mkCreated R U₁ :: mkCreated R U₂ :: (mid ++ (mkFrame dir R p t :: []))
      := by simp
  rw [e1]
  rw [processBatch_cons_ok _ _ _ _ _ (processEntry_created reg₀ R U₁ hR hU₁)]
  rw [processBatch_cons_ok _ _ _ _ _
    (processEntry_created ((R, U₁) :: reg₀) R U₂ hR hU₂)]
  rw [processBatch_append _ mid _ hmid]
  have hlook : (processBatch ((R, U₂) :: (R, U₁) :: reg₀) mid).registry.lookup R
      = some U₂ := by
    rw [processBatch_lookup_preserved R _ mid hnoreg]
    simp [List.lookup]
  have hfr := processEntry_mkFrame
    (processBatch ((R, U₂) :: (R, U₁) :: reg₀) mid).registry dir R p t
  rw [hlook] at hfr
  rw [processBatch_cons_ok _ _ _ _ _ hfr]
  simp [processBatch]

/-- C2: a frame-received or frame-sent entry whose requestId has no entry in
the url registry still yields a Message (no exception), and its url is the
sentinel "Unknown URL". -/
theorem c2_unregistered_id_yields_sentinel_url (reg : Registry) (ps : WsParams) (resp : WsResponse)
    (hresp : ps.response = some resp)
    (hunreg : regGet reg ps.requestId = none) :
    (∃ m, processEntry reg
        { method := some "Network.webSocketFrameReceived", params := some ps }
        = Except.ok (reg, some m) ∧ m.url = "Unknown URL")
    ∧ (∃ m, processEntry reg
        { method := some "Network.webSocketFrameSent", params := some ps }
        = Except.ok (reg, some m) ∧ m.url = "Unknown URL") := by
  refine ⟨⟨_, processEntry_recv reg ps resp hresp, ?_⟩,
    ⟨_, processEntry_sent reg ps resp hresp, ?_⟩⟩ <;> simp [hunreg]

/-- C4: against the same registry and the same `params`, a frame-received
entry and a frame-sent entry produce Messages equal in payload, request_id,
timestamp and url, differing only in `received`: true for received, false
for sent. -/
theorem c4_direction_fidelity (reg : Registry) (ps : WsParams) (resp : WsResponse)
    (hresp : ps.response = some resp) :
    ∃ m₁ m₂,
      processEntry reg
        { method := some "Network.webSocketFrameReceived", params := some ps }
        = Except.ok (reg, some m₁)
      ∧ processEntry reg
        { method := some "Network.webSocketFrameSent", params := some ps }
        = Except.ok (reg, some m₂)
      ∧ m₁.payload = m₂.payload ∧ m₁.request_id = m₂.request_id
      ∧ m₁.timestamp = m₂.timestamp ∧ m₁.url = m₂.url
      ∧ m₁.received = true ∧ m₂.received = false :=
  ⟨_, _, processEntry_recv reg ps resp hresp,
    processEntry_sent reg ps resp hresp, rfl, rfl, rfl, rfl, rfl, rfl⟩

/-- C5: Messages are enqueued in exactly the order of their originating
entries: processing successive poll batches equals processing the
concatenated entry stream, and for any split of an entry stream whose first
part raises no exception, the messages of the first part precede all
messages of the second part — so order is preserved within a batch and
across batches, with no reordering. -/
theorem c5_queue_preserves_entry_order :
    (∀ (reg : Registry) (bs : List (List CDPMessage)),
      processBatches reg bs = processBatch reg bs.flatten)
    ∧ (∀ (reg : Registry) (es₁ es₂ : List CDPMessage),
      (processBatch reg es₁).err = none →
      (processBatch reg (es₁ ++ es₂)).msgs
        = (processBatch reg es₁).msgs
          ++ (processBatch (processBatch reg es₁).registry es₂).msgs) := by
  refine ⟨processBatches_join, fun reg es₁ es₂ h => ?_⟩
  rw [processBatch_append reg es₁ es₂ h]

/-- C6: `start` while the running flag is set raises
`RuntimeError("Listener is already running...")` synchronously and leaves
the listener state — thread handle and spawn count included — unchanged, so
no second worker is spawned; `start` from Idle sets the running flag and
spawns the background worker. -/
theorem c6_start_already_running_raises :
    (∀ l : Listener, l.running = true →
      start l = (l, some (PyError.runtimeError "Listener is already running...")))
    ∧ (∀ l : Listener, l.running = false →
      start l = ({ running := true, thread := some l.spawnCount,
                   spawnCount := l.spawnCount + 1 }, none)) := by
  constructor <;> intro l h <;> simp [start, h]

/-- C7: whatever the outcome of the worker body — enable-capture or
navigation raising, the poll/classify/emit loop raising, or a normal exit
after the flag is cleared — `__thread_task`'s finally clause closes the
browser session and clears the running flag, so after the worker ends the
running flag always reads false. -/
theorem c7_worker_teardown_clears_running (env : WorkerEnv) (st : WorkerState) :
    (threadTask env st).1.sessionOpen = false
    ∧ (threadTask env st).1.running = false :=
  ⟨rfl, rfl⟩

/-- C8: a frame entry whose `params` has the nested `response` object but no
`payloadData` key does not fail and produces a Message with empty payload,
in both directions; an unresolved requestId likewise substitutes the
sentinel url rather than failing. -/
theorem c8_missing_payload_defaults_empty (reg : Registry) (ps : WsParams)
    (hresp : ps.response = some { payloadData := none }) :
    (∃ m, processEntry reg
        { method := some "Network.webSocketFrameReceived", params := some ps }
        = Except.ok (reg, some m) ∧ m.payload = ""
        ∧ (regGet reg ps.requestId = none → m.url = "Unknown URL"))
    ∧ (∃ m, processEntry reg
        { method := some "Network.webSocketFrameSent", params := some ps }
        = Except.ok (reg, some m) ∧ m.payload = ""
        ∧ (regGet reg ps.requestId = none → m.url = "Unknown URL")) := by
  refine ⟨⟨_, processEntry_recv reg ps _ hresp, rfl, fun hu => ?_⟩,
    ⟨_, processEntry_sent reg ps _ hresp, rfl, fun hu => ?_⟩⟩ <;> simp [hu]

/-- C9: a frame entry whose `params` is present but lacks the nested
`response` object raises `KeyError` at the field-access point, in both
directions, with no recovery: the batch iteration aborts with the error and
no Message is enqueued, rather than substituting a default payload. -/
theorem c9_missing_response_raises_keyerror (reg : Registry) (ps : WsParams) (hresp : ps.response = none) :
    processEntry reg
        { method := some "Network.webSocketFrameReceived", params := some ps }
      = Except.error (PyError.keyError "response")
    ∧ processEntry reg
        { method := some "Network.webSocketFrameSent", params := some ps }
      = Except.error (PyError.keyError "response")
    ∧ (∀ es : List CDPMessage,
      processBatch reg
        ({ method := some "Network.webSocketFrameReceived",
           params := some ps } :: es)
        = { registry := reg, msgs := [], err :=
            some (PyError.keyError "response") }) := by
  refine ⟨by simp [processEntry, hresp], by simp [processEntry, hresp],
    fun es => ?_⟩
  simp only [processBatch]
  rw [show processEntry reg
      { method := some "Network.webSocketFrameReceived", params := some ps }
      = Except.error (PyError.keyError "response") from by
    simp [processEntry, hresp]]

/-- C10: `close` on a listener whose `start` was never called clears the
running flag and then raises `AttributeError` when joining the `None` thread
handle — not a silent no-op; `close` with a thread handle present (e.g.
after the worker terminated) clears the flag and returns without error. -/
theorem c10_close_without_start_raises :
    (∀ l : Listener, l.thread = none →
      close l = ({ l with running := false },
        some (PyError.attributeError "join")))
    ∧ (∀ (l : Listener) (th : ℕ), l.thread = some th →
      close l = ({ l with running := false }, none)) := by
  constructor
  · intro l h
    simp [close, h]
  · intro l th h
    simp [close, h]

theorem c1_created_then_frame_enqueues_one_message_witness :
    ("1" : String) ≠ "" ∧ ("wss://a" : String) ≠ ""
    ∧ (processBatch [] []).err = none
    ∧ (processBatch (("1", "wss://a") :: (processBatch [] []).registry) []).err
      = none
    ∧ noRegistration "1" [] = true
    ∧ (processBatch []
        ([] ++ [mkCreated "1" "wss://a"] ++ []
          ++ [mkFrameReceived "1" "hi" 1] ++ [])).msgs
      = (processBatch [] []).msgs
        ++ (processBatch (("1", "wss://a") :: (processBatch [] []).registry)
            []).msgs
        ++ [{ payload := "hi", request_id := some "1", timestamp := some 1,
              url := "wss://a", received := true }]
        ++ (processBatch
            (processBatch (("1", "wss://a") :: (processBatch [] []).registry)
              []).registry []).msgs :=
  ⟨by decide, by decide, by decide, by decide, by decide,
    c1_created_then_frame_enqueues_one_message [] [] [] [] "1" "wss://a" "hi" 1 (by decide) (by decide)
      (by decide) (by decide) (by decide)⟩

theorem c3_registry_overwrite_resolves_latest_url_witness :
    ("1" : String) ≠ "" ∧ ("wss://a" : String) ≠ ""
    ∧ ("wss://b" : String) ≠ "" ∧ ("wss://a" : String) ≠ "wss://b"
    ∧ (processBatch [("1", "wss://b"), ("1", "wss://a")] []).err = none
    ∧ noRegistration "1" [] = true
    ∧ (processBatch []
        ([mkCreated "1" "wss://a", mkCreated "1" "wss://b"] ++ []
          ++ [mkFrame true "1" "hi" 1])).msgs
      = (processBatch [("1", "wss://b"), ("1", "wss://a")] []).msgs
        ++ [{ payload := "hi", request_id := some "1", timestamp := some 1,
              url := "wss://b", received := true }] :=
  ⟨by decide, by decide, by decide, by decide, by decide, by decide,
    c3_registry_overwrite_resolves_latest_url [] [] true "1" "wss://a" "wss://b" "hi" 1 (by decide) (by decide)
      (by decide) (by decide) (by decide) (by decide)⟩

def psPing : WsParams :=
  { requestId := some "9", url := none, timestamp := some (5/2),
    response := some { payloadData := some "ping" } }

theorem c2_unregistered_id_yields_sentinel_url_witness :
    psPing.response = some { payloadData := some "ping" }
    ∧ regGet [] psPing.requestId = none
    ∧ ((∃ m, processEntry []
        { method := some "Network.webSocketFrameReceived", params := some psPing }
        = Except.ok ([], some m) ∧ m.url = "Unknown URL")
      ∧ (∃ m, processEntry []
        { method := some "Network.webSocketFrameSent", params := some psPing }
        = Except.ok ([], some m) ∧ m.url = "Unknown URL")) :=
  ⟨rfl, rfl, c2_unregistered_id_yields_sentinel_url [] psPing { payloadData := some "ping" } rfl rfl⟩

theorem c4_direction_fidelity_witness :
    psPing.response = some { payloadData := some "ping" }
    ∧ (∃ m₁ m₂,
      processEntry []
        { method := some "Network.webSocketFrameReceived", params := some psPing }
        = Except.ok ([], some m₁)
      ∧ processEntry []
        { method := some "Network.webSocketFrameSent", params := some psPing }
        = Except.ok ([], some m₂)
      ∧ m₁.payload = m₂.payload ∧ m₁.request_id = m₂.request_id
      ∧ m₁.timestamp = m₂.timestamp ∧ m₁.url = m₂.url
      ∧ m₁.received = true ∧ m₂.received = false) :=
  ⟨rfl, c4_direction_fidelity [] psPing { payloadData := some "ping" } rfl⟩

theorem c5_queue_preserves_entry_order_witness :
    (processBatch [] [mkCreated "1" "wss://a"]).err = none
    ∧ (processBatch []
        ([mkCreated "1" "wss://a"] ++ [mkFrameReceived "1" "hi" 1])).msgs
      = (processBatch [] [mkCreated "1" "wss://a"]).msgs
        ++ (processBatch (processBatch [] [mkCreated "1" "wss://a"]).registry
            [mkFrameReceived "1" "hi" 1]).msgs :=
  ⟨by decide, c5_queue_preserves_entry_order.2 [] [mkCreated "1" "wss://a"]
    [mkFrameReceived "1" "hi" 1] (by decide)⟩

theorem c6_start_already_running_raises_witness :
    ((Listener.running { running := true, thread := some 0, spawnCount := 1 }
        = true
      ∧ start { running := true, thread := some 0, spawnCount := 1 }
        = ({ running := true, thread := some 0, spawnCount := 1 },
           some (PyError.runtimeError "Listener is already running...")))
    ∧ (Listener.running Listener.init = false
      ∧ start Listener.init
        = ({ running := true, thread := some 0, spawnCount := 1 }, none))) :=
  ⟨⟨rfl, c6_start_already_running_raises.1 { running := true, thread := some 0, spawnCount := 1 } rfl⟩,
    ⟨rfl, c6_start_already_running_raises.2 Listener.init rfl⟩⟩

def psNoPayload : WsParams :=
  { requestId := some "9", url := none, timestamp := some (5/2),
    response := some { payloadData := none } }

theorem c8_missing_payload_defaults_empty_witness :
    psNoPayload.response = some { payloadData := none }
    ∧ ((∃ m, processEntry []
        { method := some "Network.webSocketFrameReceived",
          params := some psNoPayload }
        = Except.ok ([], some m) ∧ m.payload = ""
        ∧ (regGet [] psNoPayload.requestId = none → m.url = "Unknown URL"))
      ∧ (∃ m, processEntry []
        { method := some "Network.webSocketFrameSent",
          params := some psNoPayload }
        = Except.ok ([], some m) ∧ m.payload = ""
        ∧ (regGet [] psNoPayload.requestId = none → m.url = "Unknown URL"))) :=
  ⟨rfl, c8_missing_payload_defaults_empty [] psNoPayload rfl⟩

def psNoResponse : WsParams :=
  { requestId := some "9", url := none, timestamp := some (5/2),
    response := none }

theorem c9_missing_response_raises_keyerror_witness :
    psNoResponse.response = none
    ∧ (processEntry []
        { method := some "Network.webSocketFrameReceived",
          params := some psNoResponse }
      = Except.error (PyError.keyError "response")
    ∧ processEntry []
        { method := some "Network.webSocketFrameSent",
          params := some psNoResponse }
      = Except.error (PyError.keyError "response")
    ∧ (∀ es : List CDPMessage,
      processBatch []
        ({ method := some "Network.webSocketFrameReceived",
           params := some psNoResponse } :: es)
        = { registry := [], msgs := [], err :=
            some (PyError.keyError "response") })) :=
  ⟨rfl, c9_missing_response_raises_keyerror [] psNoResponse rfl⟩

theorem c10_close_without_start_raises_witness :
    (Listener.thread Listener.init = none
      ∧ close Listener.init
        = ({ Listener.init with running := false },
           some (PyError.attributeError "join")))
    ∧ (Listener.thread { running := false, thread := some 0, spawnCount := 1 }
        = some 0
      ∧ close { running := false, thread := some 0, spawnCount := 1 }
        = ({ running := false, thread := some 0, spawnCount := 1 }, none)) :=
  ⟨⟨rfl, c10_close_without_start_raises.1 Listener.init rfl⟩,
    ⟨rfl, c10_close_without_start_raises.2 { running := false, thread := some 0, spawnCount := 1 }
      0 rfl⟩⟩

end WsListener
